import Mathlib

/-!
Shallow embedding of the ReverseProxyGUI proxy lifecycle manager and
request-forwarding engine (src/src-tauri/src/proxy_manager.rs and
src/src-tauri/src/lib.rs), together with theorems settling the frozen
claims about the natural-language specification.

External library behaviour (the `url` crate parser, `http` header
validation, socket binding, the tauri store, serde deserialization, the
tokio join/timeout outcomes) is modelled either by executable Lean
functions restricted to the fragment the program exercises, or by oracle
fields of an explicit environment record, as noted on each definition.
-/

deriving instance DecidableEq for Except

namespace ReverseProxyGUI

/-- Structure `Header` from proxy_manager.rs: one configured request-header override. -/
structure Header where
  key : String
  value : String
deriving DecidableEq, Repr

/-- Structure `ProxyConfig` from proxy_manager.rs (serde field names in camelCase on
the wire; we keep the Rust field names). `listen_port : Nat` stands for the
Rust `u16`; all ports handled are < 65536. -/
structure ProxyConfig where
  id : String
  name : String
  listen_address : String
  listen_port : Nat
  listen_ip : String
  remote_address : String
  remote_host : String
  use_https : Bool
  headers : List Header
  rewrite_host_headers : Bool
  socks5_proxy : Option String
  created_at : Int
  is_running : Bool
deriving DecidableEq, Repr

/-! ## URL model

Model of `url::Url::parse` restricted to the hierarchical absolute URLs
this program manipulates (`scheme://host[:port][/path][?query]`, no
userinfo, no IPv6 bracket syntax, no fragment). As in the `url` crate,
scheme and host are lowercased, the port is dropped when it equals the
scheme's default, and an empty path of a special scheme reads as `"/"`.
Any input outside this fragment parses to `none` (malformed). -/

structure Url where
  scheme : String
  host : String
  port : Option Nat
  path : String
  query : Option String
deriving DecidableEq, Repr

def defaultPortOf (scheme : String) : Option Nat :=
  if scheme = "http" then some 80
  else if scheme = "https" then some 443
  else if scheme = "ws" then some 80
  else if scheme = "wss" then some 443
  else if scheme = "ftp" then some 21
  else none

def isSchemeChar (c : Char) : Bool :=
  c.isAlpha || c.isDigit || c = '+' || c = '-' || c = '.'

def isHostChar (c : Char) : Bool :=
  c.isAlpha || c.isDigit || c = '.' || c = '-' || c = '_'

/-- Split a character list at the first occurrence of `"://"`, returning
the part before and the part after, or `none` when absent. -/
def splitSchemeSep : List Char → Option (List Char × List Char)
  | [] => none
  | ':' :: '/' :: '/' :: rest => some ([], rest)
  | c :: rest =>
    match splitSchemeSep rest with
    | some (a, b) => some (c :: a, b)
    | none => none

/-- Split a character list at the first character satisfying `p`
(the splitting character stays at the head of the second component). -/
def splitFirst (p : Char → Bool) : List Char → List Char × List Char
  | [] => ([], [])
  | c :: cs =>
    if p c then ([], c :: cs)
    else
      let r := splitFirst p cs
      (c :: r.1, r.2)

def digitsToNat : List Char → Option Nat
  | [] => none
  | cs =>
    if cs.all (·.isDigit) then
      some (cs.foldl (fun acc c => acc * 10 + (c.toNat - 48)) 0)
    else none

/-- Parse `host[:port]` (the authority, already known to contain no
userinfo). Yields `none` when the host is empty or invalid, or the port
digits are invalid or out of `u16` range. An empty port after `:` reads
as "no port", as in the `url` crate. -/
def parseAuthority (cs : List Char) : Option (String × Option Nat) :=
  let s := splitFirst (· = ':') cs
  let hostCs := s.1
  if hostCs.isEmpty || !(hostCs.all isHostChar) then none
  else
    let host := String.mk (hostCs.map Char.toLower)
    match s.2 with
    | [] => some (host, none)
    | _ :: portCs =>
      if portCs.isEmpty then some (host, none)
      else
        match digitsToNat portCs with
        | some p => if p < 65536 then some (host, some p) else none
        | none => none

/-- Parse the part after the authority into path and query. -/
def parsePathQuery (cs : List Char) : String × Option String :=
  match cs with
  | [] => ("/", none)
  | '?' :: q => ("/", some (String.mk q))
  | _ =>
    let s := splitFirst (· = '?') cs
    match s.2 with
    | [] => (String.mk s.1, none)
    | _ :: q => (String.mk s.1, some (String.mk q))

def urlParse (s : String) : Option Url :=
  match splitSchemeSep s.data with
  | none => none
  | some (schemeCs, rest) =>
    if schemeCs.isEmpty then none
    else if ¬ (schemeCs.headD 'a').isAlpha then none
    else if ¬ schemeCs.all isSchemeChar then none
    else
      let scheme := String.mk (schemeCs.map Char.toLower)
      let sp := splitFirst (fun c => c = '/' || c = '?') rest
      match parseAuthority sp.1 with
      | none => none
      | some (host, port) =>
        let pq := parsePathQuery sp.2
        let port := if port = defaultPortOf scheme then none else port
        some { scheme := scheme, host := host, port := port,
               path := pq.1, query := pq.2 }

/-! ## Header map model

Model of `http::HeaderMap` as an association list with lowercased keys
(the `http` crate normalizes header names to lowercase; inbound axum
requests already carry normalized names). `insert` replaces any existing
values of the key, as `HeaderMap::insert` does. -/

abbrev Headers := List (String × String)

def headersGet : Headers → String → Option String
  | [], _ => none
  | p :: rest, k => if p.1 = k then some p.2 else headersGet rest k

def headersRemove : Headers → String → Headers
  | [], _ => []
  | p :: rest, k =>
    if p.1 = k then headersRemove rest k else p :: headersRemove rest k

def headersInsert (hs : Headers) (k v : String) : Headers :=
  (k, v) :: headersRemove hs k

/-- In-place value replacement for a present key, the model of
`HeaderMap::get_mut` followed by `*value = new`. Absent keys are left
untouched. -/
def headersSet : Headers → String → String → Headers
  | [], _, _ => []
  | p :: rest, k, v =>
    if p.1 = k then (p.1, v) :: headersSet rest k v
    else p :: headersSet rest k v

/-- Model of `http::HeaderValue::from_str` validity: each byte must be
horizontal tab or not a control character (DEL excluded); non-ASCII
characters only contribute bytes ≥ 0x80, which the crate accepts. -/
def validHeaderValueChar (c : Char) : Bool :=
  c = '\t' || (32 ≤ c.toNat && c.toNat ≠ 127)

def validHeaderValue (s : String) : Bool :=
  s.data.all validHeaderValueChar

/-- Model of `http::HeaderName::from_bytes` validity (token characters). -/
def validHeaderNameChar (c : Char) : Bool :=
  c.isAlpha || c.isDigit ||
    c = '!' || c = '#' || c = '$' || c = '%' || c = '&' || c = Char.ofNat 39 ||
    c = '*' || c = '+' || c = '-' || c = '.' || c = '^' || c = '_' ||
    c = Char.ofNat 96 || c = '|' || c = '~'

def validHeaderName (s : String) : Bool :=
  ¬ s.data.isEmpty && s.data.all validHeaderNameChar

/-! ## Forwarding handler (proxy_manager.rs, `proxy_handler` and
`rewrite_url_header`)

`proxy_handler` is `async` but per-request stateless; its header/URL
transformation is a pure function of the configuration and the inbound
request, embedded here as `buildOutbound`. The outcome of the single
outbound `client.execute` call is an input (`UpstreamOutcome`). Body
streaming is not part of any transformation modelled here. -/

/-- Function `rewrite_url_header` from proxy_manager.rs: replace the scheme+host of
`original_url` by `scheme`/`target_host`, keeping its path and query; on an
unparseable value, fall back to the bare `scheme://target_host`. -/
def rewrite_url_header (original_url target_host : String)
    (scheme : Option String) : String :=
  match urlParse original_url with
  | some url =>
    let scheme := scheme.getD url.scheme
    let query := match url.query with
      | some q => "?" ++ q
      | none => ""
    scheme ++ "://" ++ target_host ++ url.path ++ query
  | none =>
    let scheme := scheme.getD "http"
    scheme ++ "://" ++ target_host

/-- The `host[:port]` string derived from the parsed `remote_address`
(`remote_url.host_str()` plus `remote_url.port()` when present; the parser
model already dropped scheme-default ports, as the `url` crate does). -/
def hostPortString (u : Url) : String :=
  match u.port with
  | some p => u.host ++ ":" ++ Nat.repr p
  | none => u.host

/-- The Host value the handler computes: `remote_host` when non-empty,
otherwise `host[:port]` from the parsed remote address. -/
def hostHeaderOf (config : ProxyConfig) (u : Url) : String :=
  if config.remote_host ≠ "" then config.remote_host else hostPortString u

/-- One `Referer`/`Origin` rewrite step: when the header is present,
rewrite its value with `rewrite_url_header` and store it back if the new
value is a valid header value (`HeaderValue::from_str`); header values in
this model are strings, so the crate's `to_str` step always succeeds. -/
def rewriteHeaderIfPresent (hs : Headers) (name : String) (remoteUrl : Url) :
    Headers :=
  match headersGet hs name with
  | some v =>
    let newV := rewrite_url_header v remoteUrl.host (some remoteUrl.scheme)
    if validHeaderValue newV then headersSet hs name newV else hs
  | none => hs

/-- Step 3 of the handler: apply every configured extra header as an
insert-or-replace, skipping empty keys, keys case-insensitively equal to
`host`, and keys/values invalid per the `http` crate; inserted names are
lowercased, as `HeaderName::from_bytes` does. -/
def applyExtraHeaders (hs : Headers) : List Header → Headers
  | [] => hs
  | h :: rest =>
    let hs' :=
      if h.key ≠ "" ∧ h.key.toLower ≠ "host" ∧
          validHeaderName h.key ∧ validHeaderValue h.value then
        headersInsert hs h.key.toLower h.value
      else hs
    applyExtraHeaders hs' rest

/-- The outbound request the handler builds before executing it. -/
structure OutboundRequest where
  url : String
  headers : Headers
deriving DecidableEq, Repr

/-- The Host-setting block of the handler (step 2 of the code after the
removal): insert the computed Host value when it is non-empty and a valid
header value. -/
def hostStage (config : ProxyConfig) (hs : Headers) (remoteUrl : Url) :
    Headers :=
  if hostHeaderOf config remoteUrl ≠ "" ∧
      validHeaderValue (hostHeaderOf config remoteUrl) then
    headersInsert hs "host" (hostHeaderOf config remoteUrl)
  else hs

/-- The `Referer`/`Origin` rewriting block of the handler, run only when
`rewrite_host_headers` is set (the code's `host_str()` guard is always
satisfied: the parsed URL model carries a host). -/
def rewriteStage (config : ProxyConfig) (hs : Headers) (remoteUrl : Url) :
    Headers :=
  if config.rewrite_host_headers then
    rewriteHeaderIfPresent (rewriteHeaderIfPresent hs "referer" remoteUrl)
      "origin" remoteUrl
  else hs

/-- The header/URL transformation stage of `proxy_handler`: compose the
target URL, strip the inbound `Host`, set the new `Host`, rewrite
`Referer`/`Origin` when configured, apply the extra headers. Returns the
error response `(status, body)` when target composition fails (the code
parses the composed string twice, as `http::Uri` and as `reqwest::Url`;
both are modelled by `urlParse`). -/
def buildOutbound (config : ProxyConfig) (pathQuery : String)
    (inHeaders : Headers) : Except (Nat × String) OutboundRequest :=
  let targetUri := config.remote_address ++ pathQuery
  match urlParse targetUri with
  | none => .error (400, "Invalid target URI")
  | some _ =>
    let hs := headersRemove inHeaders "host"
    let hs :=
      match urlParse config.remote_address with
      | some remoteUrl =>
        rewriteStage config (hostStage config hs remoteUrl) remoteUrl
      | none => hs
    .ok { url := targetUri, headers := applyExtraHeaders hs config.headers }

/-- Outcome of the single `client.execute` call, with the two reqwest
error classifiers the code consults (`is_timeout`, `is_connect`). -/
inductive UpstreamOutcome where
  | success (status : Nat) (headers : Headers)
  | failure (isTimeout : Bool) (isConnect : Bool) (msg : String)
deriving DecidableEq, Repr

/-- What the handler hands back to axum: either a streamed upstream
response (status and headers copied verbatim) or a locally generated
error response `(status, body)` — in both cases an HTTP response to the
client, never a crash of the serving task. -/
inductive HandlerResult where
  | response (status : Nat) (headers : Headers)
  | errorResponse (status : Nat) (body : String)
deriving DecidableEq, Repr

/-- Function `proxy_handler` from proxy_manager.rs, as a function of the
configuration, the inbound request line/headers, and the upstream
outcome. -/
def proxy_handler (config : ProxyConfig) (pathQuery : String)
    (inHeaders : Headers) (upstream : OutboundRequest → UpstreamOutcome) :
    HandlerResult :=
  match buildOutbound config pathQuery inHeaders with
  | .error (s, b) => .errorResponse s b
  | .ok out =>
    match upstream out with
    | .failure isTimeout isConnect msg =>
      let status : Nat :=
        if isTimeout then 504
        else if isConnect then 502
        else 500
      .errorResponse status ("Failed to forward request: " ++ msg)
    | .success st hs => .response st hs

/-! ## Lifecycle: errors, environment, server creation (proxy_manager.rs)

Network, filesystem and runtime effects (socket-address resolution and
parsing, transient binds, certificate generation, temp-file writes, TLS
setup, the serve loop's fate, the join/timeout outcome, `reqwest`'s proxy
URL parser) are oracles collected in `NetEnv`; the code only branches on
their success/failure, which is exactly what the oracles expose. -/

/-- Error type `ProxyError` from proxy_manager.rs (the non-commented variants). -/
inductive ProxyError where
  | InvalidAddress (msg : String)
  | CertificateError (msg : String)
  | StopError (msg : String)
deriving DecidableEq, Repr

/-- The `thiserror`-derived `Display` text of each variant. -/
def ProxyError.message : ProxyError → String
  | .InvalidAddress m => "Invalid address: " ++ m
  | .CertificateError m => "Failed to generate certificate: " ++ m
  | .StopError m => "Failed to stop proxy: " ++ m

/-- A resolved/parsed socket address (model of `std::net::SocketAddr`). -/
structure SocketAddr where
  ip : String
  port : Nat
deriving DecidableEq, Repr

/-- Join outcome of `tokio::time::timeout(5s, server_handle)`:
the task finished with `Ok(())`, the task finished with a `JoinError`
(panic/abort), or the five-second bound elapsed first. -/
inductive JoinOutcome where
  | finished
  | panicked (msg : String)
  | timedOut
deriving DecidableEq, Repr

/-- Environment oracles for the effectful library calls. -/
structure NetEnv where
  /-- Result of `to_socket_addrs().next()` on `"ip:port"`; `none` covers both a
  resolution error and an empty iterator. -/
  resolveFirst : String → Option SocketAddr
  /-- Success of the transient `std::net::TcpListener::bind`. -/
  bindOk : SocketAddr → Bool
  /-- Outcome of `"ip:port".parse::<SocketAddr>()` in `create_proxy_server`. -/
  parseSocketAddr : String → Option SocketAddr
  /-- Success of `generate_self_signed_cert` (rcgen key generation,
  signing and encoding). -/
  certGenOk : Bool
  /-- Success of writing the two ephemeral PEM files. -/
  writeCertOk : Bool
  writeKeyOk : Bool
  /-- Success of `RustlsConfig::from_pem_file`. -/
  tlsConfigOk : Bool
  /-- Whether the `axum_server` bind/serve loop on this address returns
  with a fatal error before any shutdown signal. -/
  serveFatal : SocketAddr → Bool
  /-- How awaiting the spawned task's join handle resolves at stop time. -/
  joinOutcome : JoinOutcome
  /-- Success of `reqwest::Proxy::all(proxy_url)`. -/
  proxyParseOk : String → Bool

/-- Model of `str::trim`. -/
def trimString (s : String) : String :=
  String.mk (((s.data.dropWhile (·.isWhitespace)).reverse.dropWhile
    (·.isWhitespace)).reverse)

/-- Structure `ProxyState` from proxy_manager.rs: the configuration snapshot plus
the outbound `reqwest` client, of which we model the one observable the
claims mention — which egress proxy (if any) the client was built with. -/
structure ProxyState where
  config : ProxyConfig
  clientProxy : Option String
deriving DecidableEq, Repr

/-- Constructor `ProxyState::new`: the client gets the SOCKS5 proxy only when the
configured value is non-empty after trimming and `reqwest::Proxy::all`
accepts it; an invalid value is logged and dropped, never an error. -/
def ProxyState.new (env : NetEnv) (config : ProxyConfig) : ProxyState :=
  { config := config,
    clientProxy :=
      match config.socks5_proxy with
      | some proxyUrl =>
        if trimString proxyUrl ≠ "" then
          if env.proxyParseOk proxyUrl then some proxyUrl else none
        else none
      | none => none }

/-- Terminal classification of the spawned server task: where it ends up
once started. Only `serving` corresponds to the spec's `Serving` state
(listener accepting connections until shutdown). -/
inductive TaskOutcome where
  | certFailed
  | tempFileFailed
  | tlsConfigFailed
  | serveFailed
  | serving
deriving DecidableEq, Repr

/-- The fate of the spawned task in `create_proxy_server` (the HTTPS arm
generates the certificate, writes the PEM temp files and builds the TLS
config before serving; every failure there makes the task return early,
never reaching `serving`). -/
def serverTaskOutcome (env : NetEnv) (config : ProxyConfig)
    (addr : SocketAddr) : TaskOutcome :=
  if config.use_https then
    if ¬ env.certGenOk then .certFailed
    else if ¬ env.writeCertOk then .tempFileFailed
    else if ¬ env.writeKeyOk then .tempFileFailed
    else if ¬ env.tlsConfigOk then .tlsConfigFailed
    else if env.serveFatal addr then .serveFailed
    else .serving
  else
    if env.serveFatal addr then .serveFailed
    else .serving

/-- The spawned server task together with its captured state (the model of
the `(oneshot::Sender, JoinHandle)` pair `create_proxy_server` returns). -/
structure ServerTask where
  addr : SocketAddr
  state : ProxyState
  outcome : TaskOutcome
  join : JoinOutcome
deriving DecidableEq, Repr

/-- Function `create_proxy_server` from proxy_manager.rs. Note that it fails only
when the listen address does not parse: certificate generation, temp-file
writes, TLS setup and the bind all happen inside `tokio::spawn`, after
this function has already returned `Ok`. -/
def create_proxy_server (env : NetEnv) (config : ProxyConfig) :
    Except ProxyError ServerTask :=
  let proxyState := ProxyState.new env config
  let listenAddr := config.listen_ip ++ ":" ++ Nat.repr config.listen_port
  match env.parseSocketAddr listenAddr with
  | none => .error (.InvalidAddress "Invalid listen address")
  | some addr =>
    .ok { addr := addr, state := proxyState,
          outcome := serverTaskOutcome env config addr,
          join := env.joinOutcome }

/-- Function `check_port_available` from proxy_manager.rs: resolve `"ip:port"`,
take the first address, report the transient bind's success; resolution
failure or emptiness reports unavailable. There is no special case for
port `0`. -/
def check_port_available (env : NetEnv) (ip : String) (port : Nat) : Bool :=
  match env.resolveFirst (ip ++ ":" ++ Nat.repr port) with
  | some addr => env.bindOk addr
  | none => false

/-- The `check_port` tauri command from lib.rs: rejects port `0` and any
ip other than `127.0.0.1`/`0.0.0.0` without probing. -/
def check_port (env : NetEnv) (ip : String) (port : Nat) : Bool :=
  if port = 0 then false
  else if ip ≠ "127.0.0.1" ∧ ip ≠ "0.0.0.0" then false
  else check_port_available env ip port

/-! ## Registry and lifecycle manager -/

/-- Structure `ProxyInstance` from proxy_manager.rs (the oneshot sender is folded
into the task model). -/
structure ProxyInstance where
  config : ProxyConfig
  task : ServerTask
deriving DecidableEq, Repr

/-- The `ProxyManager` map (`HashMap<String, ProxyInstance>` behind the
`RwLock`), modelled as an association list whose operations mirror the
`HashMap` ones; `registryInsert` replaces any previous entry of the key. -/
abbrev Registry := List (String × ProxyInstance)

def registryContains : Registry → String → Bool
  | [], _ => false
  | p :: rest, k => p.1 = k || registryContains rest k

def registryGet : Registry → String → Option ProxyInstance
  | [], _ => none
  | p :: rest, k => if p.1 = k then some p.2 else registryGet rest k

def registryRemove : Registry → String → Registry
  | [], _ => []
  | p :: rest, k =>
    if p.1 = k then registryRemove rest k else p :: registryRemove rest k

def registryInsert (r : Registry) (k : String) (v : ProxyInstance) :
    Registry :=
  (k, v) :: registryRemove r k

/-- Number of entries of the map that carry the key (the `HashMap`
invariant the claims speak about is that this is at most one). -/
def registryCountKey : Registry → String → Nat
  | [], _ => 0
  | p :: rest, k =>
    (if p.1 = k then 1 else 0) + registryCountKey rest k

/-- Function `start_proxy_helper` from proxy_manager.rs: probe the port, create
the server, store the instance. The insert is unconditional once
`create_proxy_server` returned `Ok` — nothing awaits the spawned task. -/
def start_proxy_helper (env : NetEnv) (manager : Registry)
    (config : ProxyConfig) : Registry × Except String Unit :=
  let listenAddr := config.listen_ip ++ ":" ++ Nat.repr config.listen_port
  if ¬ check_port_available env config.listen_ip config.listen_port then
    (manager,
     .error ("Port " ++ Nat.repr config.listen_port ++ " is already in use"))
  else
    let updatedConfig :=
      { config with listen_address := listenAddr, is_running := true }
    match create_proxy_server env updatedConfig with
    | .error e =>
      (manager, .error ("Failed to create proxy server: " ++ e.message))
    | .ok task =>
      (registryInsert manager updatedConfig.id
        { config := updatedConfig, task := task }, .ok ())

/-- Function `stop_proxy_server` from proxy_manager.rs: send the shutdown signal,
await the join handle for at most five seconds. A normal finish and a
timeout are both `Ok`; a `JoinError` is `StopError`. -/
def stop_proxy_server (inst : ProxyInstance) : Except ProxyError Unit :=
  match inst.task.join with
  | .finished => .ok ()
  | .panicked msg => .error (.StopError ("Task error: " ++ msg))
  | .timedOut => .ok ()

/-! ## Configuration store and command layer (lib.rs)

The tauri store is external; we model the value kept under the
`proxy_configs` key abstractly: serde deserialization either yields a
configuration list (`good`) or fails (`corrupt`), which is the only
distinction the code branches on. Store open/save failures are oracle
booleans; the oracle error-message suffixes are elided, so the model uses
the code's fixed message prefixes. -/

/-- The JSON value stored under `proxy_configs`, classified by whether
`serde_json::from_value::<Vec<ProxyConfig>>` succeeds on it. -/
inductive StoredValue where
  | good (configs : List ProxyConfig)
  | corrupt (raw : String)
deriving DecidableEq, Repr

/-- Model of `serde_json::from_value::<Vec<ProxyConfig>>`. -/
def deserializeConfigs : StoredValue → Option (List ProxyConfig)
  | .good cs => some cs
  | .corrupt _ => none

/-- The `store.json` tauri store, as the code observes it. -/
structure StoreState where
  /-- Success of `app.store("store.json")`. -/
  openOk : Bool
  /-- Result of `store.get("proxy_configs")`. -/
  value : Option StoredValue
  /-- Success of `store.save()`. -/
  saveOk : Bool
deriving DecidableEq, Repr

/-- The `get_all_configs` tauri command from lib.rs: an absent value and
a corrupt value both yield `Ok([])`; only a store-open failure errors. -/
def get_all_configs (store : StoreState) :
    Except String (List ProxyConfig) :=
  if ¬ store.openOk then .error "Failed to open store"
  else
    match store.value with
    | some v =>
      match deserializeConfigs v with
      | some configs => .ok configs
      | none => .ok []
    | none => .ok []

/-- The `start_proxy` tauri command from lib.rs: reject when the id is
already in the manager, load the configuration from the store, run
`start_proxy_helper`, then mark the stored configuration as running and
save. Returns the store and registry after the call plus the result. -/
def start_proxy (env : NetEnv) (store : StoreState) (reg : Registry)
    (config_id : String) : StoreState × Registry × Except String Unit :=
  if registryContains reg config_id then
    (store, reg, .error ("Proxy already running: " ++ config_id))
  else if ¬ store.openOk then (store, reg, .error "Failed to open store")
  else
    match store.value with
    | none => (store, reg, .error "No configs found")
    | some v =>
      match deserializeConfigs v with
      | none => (store, reg, .error "Failed to deserialize configs")
      | some configs =>
        match configs.find? (fun c => c.id = config_id) with
        | none => (store, reg, .error ("Config not found: " ++ config_id))
        | some config =>
          match start_proxy_helper env reg config with
          | (reg', .error e) => (store, reg', .error e)
          | (reg', .ok ()) =>
            if ¬ store.openOk then
              (store, reg', .error "Failed to open store")
            else
              match store.value with
              | none => (store, reg', .error "No configs found")
              | some v₂ =>
                match deserializeConfigs v₂ with
                | none =>
                  (store, reg', .error "Failed to deserialize configs")
                | some configs₂ =>
                  let configs₃ := configs₂.map (fun c =>
                    if c.id = config_id then { c with is_running := true }
                    else c)
                  let store' := { store with value := some (.good configs₃) }
                  if ¬ store.saveOk then
                    (store', reg', .error "Failed to save store")
                  else (store', reg', .ok ())

/-- The `stop_proxy` tauri command from lib.rs: remove the instance from
the manager (failing with the not-found message when absent), run the
bounded stop protocol, then mark the stored configuration as stopped and
save. -/
def stop_proxy (store : StoreState) (reg : Registry) (config_id : String) :
    StoreState × Registry × Except String Unit :=
  match registryGet reg config_id with
  | none => (store, reg, .error ("Proxy not found: " ++ config_id))
  | some inst =>
    let reg' := registryRemove reg config_id
    match stop_proxy_server inst with
    | .error e =>
      (store, reg', .error ("Failed to stop proxy: " ++ e.message))
    | .ok () =>
      if ¬ store.openOk then (store, reg', .error "Failed to open store")
      else
        match store.value with
        | none => (store, reg', .error "No configs found")
        | some v =>
          match deserializeConfigs v with
          | none => (store, reg', .error "Failed to deserialize configs")
          | some configs =>
            let configs' := configs.map (fun c =>
              if c.id = config_id then { c with is_running := false }
              else c)
            let store' := { store with value := some (.good configs') }
            if ¬ store.saveOk then
              (store', reg', .error "Failed to save store")
            else (store', reg', .ok ())

/-! ## Lemmas about the header-map, registry and URL models -/

theorem headersGet_remove_ne (hs : Headers) (k a : String) (h : a ≠ k) :
    headersGet (headersRemove hs k) a = headersGet hs a := by
  induction hs with
  | nil => rfl
  | cons p rest ih =>
    by_cases hp : p.1 = k
    · have hpa : p.1 ≠ a := by rw [hp]; exact fun e => h e.symm
      simp [headersRemove, headersGet, hp, hpa, Ne.symm h, ih]
    · by_cases hpa : p.1 = a <;>
        simp [headersRemove, headersGet, hp, hpa, h, Ne.symm h, ih]

theorem headersGet_remove_self (hs : Headers) (k : String) :
    headersGet (headersRemove hs k) k = none := by
  induction hs with
  | nil => rfl
  | cons p rest ih =>
    by_cases hp : p.1 = k <;> simp [headersRemove, headersGet, hp, ih]

theorem headersGet_insert_self (hs : Headers) (k v : String) :
    headersGet (headersInsert hs k v) k = some v := by
  simp [headersInsert, headersGet]

theorem headersGet_insert_ne (hs : Headers) (k v a : String) (h : a ≠ k) :
    headersGet (headersInsert hs k v) a = headersGet hs a := by
  simp [headersInsert, headersGet, Ne.symm h, headersGet_remove_ne hs k a h]

theorem headersGet_set_ne (hs : Headers) (k v a : String) (h : a ≠ k) :
    headersGet (headersSet hs k v) a = headersGet hs a := by
  induction hs with
  | nil => rfl
  | cons p rest ih =>
    by_cases hp : p.1 = k
    · have hpa : p.1 ≠ a := by rw [hp]; exact fun e => h e.symm
      simp [headersSet, headersGet, hp, hpa, Ne.symm h, ih]
    · by_cases hpa : p.1 = a <;>
        simp [headersSet, headersGet, hp, hpa, h, Ne.symm h, ih]

theorem headersGet_set_self (hs : Headers) (k v w : String)
    (h : headersGet hs k = some w) :
    headersGet (headersSet hs k v) k = some v := by
  induction hs with
  | nil => simp [headersGet] at h
  | cons p rest ih =>
    by_cases hp : p.1 = k
    · simp [headersSet, headersGet, hp]
    · simp [headersGet, hp] at h
      simp [headersSet, headersGet, hp, ih h]

theorem applyExtraHeaders_get_host (l : List Header) (hs : Headers) :
    headersGet (applyExtraHeaders hs l) "host" = headersGet hs "host" := by
  induction l generalizing hs with
  | nil => rfl
  | cons h rest ih =>
    unfold applyExtraHeaders
    by_cases hc : h.key ≠ "" ∧ h.key.toLower ≠ "host" ∧
        validHeaderName h.key ∧ validHeaderValue h.value
    · rw [if_pos hc, ih]
      exact headersGet_insert_ne hs h.key.toLower h.value "host"
        (fun e => hc.2.1 e.symm)
    · rw [if_neg hc, ih]

theorem applyExtraHeaders_get_ne (l : List Header) (hs : Headers)
    (a : String) (hl : ∀ h ∈ l, h.key.toLower ≠ a) :
    headersGet (applyExtraHeaders hs l) a = headersGet hs a := by
  induction l generalizing hs with
  | nil => rfl
  | cons h rest ih =>
    have hrest : ∀ x ∈ rest, x.key.toLower ≠ a :=
      fun x hx => hl x (List.mem_cons_of_mem h hx)
    unfold applyExtraHeaders
    by_cases hc : h.key ≠ "" ∧ h.key.toLower ≠ "host" ∧
        validHeaderName h.key ∧ validHeaderValue h.value
    · rw [if_pos hc, ih (headersInsert hs h.key.toLower h.value) hrest]
      exact headersGet_insert_ne hs h.key.toLower h.value a
        (fun e => hl h (List.mem_cons_self h rest) e.symm)
    · rw [if_neg hc, ih hs hrest]

theorem rewriteHeaderIfPresent_get_ne (hs : Headers) (name a : String)
    (u : Url) (h : a ≠ name) :
    headersGet (rewriteHeaderIfPresent hs name u) a = headersGet hs a := by
  unfold rewriteHeaderIfPresent
  cases hv : headersGet hs name with
  | none => rfl
  | some v =>
    by_cases hvalid :
        validHeaderValue (rewrite_url_header v u.host (some u.scheme))
    · simp only [hvalid, if_pos]
      exact headersGet_set_ne hs name _ a h
    · simp [hvalid]

theorem rewriteHeaderIfPresent_get_self (hs : Headers) (name : String)
    (u : Url) (v : String) (hv : headersGet hs name = some v)
    (hvalid : validHeaderValue
      (rewrite_url_header v u.host (some u.scheme)) = true) :
    headersGet (rewriteHeaderIfPresent hs name u) name =
      some (rewrite_url_header v u.host (some u.scheme)) := by
  unfold rewriteHeaderIfPresent
  rw [hv]
  simp only [hvalid, if_pos]
  exact headersGet_set_self hs name _ v hv

theorem registryGet_eq_none_iff (r : Registry) (k : String) :
    registryGet r k = none ↔ registryContains r k = false := by
  induction r with
  | nil => simp [registryGet, registryContains]
  | cons p rest ih =>
    by_cases hp : p.1 = k <;>
      simp [registryGet, registryContains, hp, ih]

theorem registryContains_of_get (r : Registry) (k : String)
    (i : ProxyInstance) (h : registryGet r k = some i) :
    registryContains r k = true := by
  induction r with
  | nil => simp [registryGet] at h
  | cons p rest ih =>
    by_cases hp : p.1 = k
    · simp [registryContains, hp]
    · simp only [registryGet, hp, if_neg, if_false] at h
      simp [registryContains, hp, ih h]

theorem registryCountKey_remove (r : Registry) (k : String) :
    registryCountKey (registryRemove r k) k = 0 := by
  induction r with
  | nil => rfl
  | cons p rest ih =>
    by_cases hp : p.1 = k <;>
      simp [registryRemove, registryCountKey, hp, ih]

theorem registryCountKey_insert (r : Registry) (k : String)
    (v : ProxyInstance) : registryCountKey (registryInsert r k v) k = 1 := by
  simp [registryInsert, registryCountKey, registryCountKey_remove]

theorem registryContains_insert_self (r : Registry) (k : String)
    (v : ProxyInstance) : registryContains (registryInsert r k v) k = true := by
  simp [registryInsert, registryContains]

theorem registryGet_insert_self (r : Registry) (k : String)
    (v : ProxyInstance) : registryGet (registryInsert r k v) k = some v := by
  simp [registryInsert, registryGet]

theorem parseAuthority_host_ne (cs : List Char) (host : String)
    (port : Option Nat) (h : parseAuthority cs = some (host, port)) :
    host ≠ "" := by
  unfold parseAuthority at h
  set s := splitFirst (fun c => c = ':') cs with hs
  by_cases hc : (s.1.isEmpty || !(s.1.all isHostChar)) = true
  · rw [if_pos hc] at h
    cases h
  · rw [if_neg hc] at h
    have hne : s.1 ≠ [] := by
      intro e
      apply hc
      simp [e]
    have hhost : host = String.mk (s.1.map Char.toLower) := by
      split at h
      · injection h with h'
        exact (congrArg Prod.fst h').symm
      · split at h
        · injection h with h'
          exact (congrArg Prod.fst h').symm
        · split at h
          · split at h
            · injection h with h'
              exact (congrArg Prod.fst h').symm
            · cases h
          · cases h
    rw [hhost]
    intro e
    have hdata := congrArg String.data e
    have : s.1.map Char.toLower = [] := hdata
    exact hne (List.map_eq_nil_iff.mp this)

theorem urlParse_host_ne (s : String) (u : Url)
    (h : urlParse s = some u) : u.host ≠ "" := by
  unfold urlParse at h
  split at h
  · cases h
  · split at h
    · cases h
    · split at h
      · cases h
      · split at h
        · cases h
        · simp only [] at h
          split at h
          · cases h
          · rename_i host port hauth
            injection h with h'
            have := congrArg Url.host h'
            simp at this
            rw [← this]
            exact parseAuthority_host_ne _ _ _ hauth

/-! ## Handler characterization lemmas -/

theorem append_ne_empty_left (a b : String) (h : a ≠ "") : a ++ b ≠ "" := by
  intro e
  apply h
  have hdata := congrArg String.data e
  rw [String.data_append] at hdata
  have : a.data = [] := List.append_eq_nil.mp hdata |>.1
  cases a
  simpa [String.ext_iff]

theorem hostStage_get_ne (config : ProxyConfig) (hs : Headers) (u : Url)
    (name : String) (h : name ≠ "host") :
    headersGet (hostStage config hs u) name = headersGet hs name := by
  unfold hostStage
  split
  · exact headersGet_insert_ne _ _ _ _ h
  · rfl

theorem rewriteStage_get_host (config : ProxyConfig) (hs : Headers)
    (u : Url) :
    headersGet (rewriteStage config hs u) "host" = headersGet hs "host" := by
  unfold rewriteStage
  split
  · rw [rewriteHeaderIfPresent_get_ne _ _ _ _ (by decide),
      rewriteHeaderIfPresent_get_ne _ _ _ _ (by decide)]
  · rfl

theorem buildOutbound_ok_headers (config : ProxyConfig) (pq : String)
    (inHeaders : Headers) (out : OutboundRequest) (u : Url)
    (hok : buildOutbound config pq inHeaders = .ok out)
    (hu : urlParse config.remote_address = some u) :
    out.headers = applyExtraHeaders
      (rewriteStage config
        (hostStage config (headersRemove inHeaders "host") u) u)
      config.headers := by
  cases htarget : urlParse (config.remote_address ++ pq) with
  | none => simp [buildOutbound, htarget] at hok
  | some t =>
    simp only [buildOutbound, htarget, hu, Except.ok.injEq] at hok
    rw [← hok]

theorem buildOutbound_ok_headers_of_unparsed (config : ProxyConfig)
    (pq : String) (inHeaders : Headers) (out : OutboundRequest)
    (hok : buildOutbound config pq inHeaders = .ok out)
    (hu : urlParse config.remote_address = none) :
    out.headers =
      applyExtraHeaders (headersRemove inHeaders "host") config.headers := by
  cases htarget : urlParse (config.remote_address ++ pq) with
  | none => simp [buildOutbound, htarget] at hok
  | some t =>
    simp only [buildOutbound, htarget, hu, Except.ok.injEq] at hok
    rw [← hok]

/-- The host value the handler computes is never empty when the remote
address parses (the parsed host is non-empty). -/
theorem hostHeaderOf_ne_empty (config : ProxyConfig) (u : Url)
    (hhost : u.host ≠ "") : hostHeaderOf config u ≠ "" := by
  unfold hostHeaderOf
  split
  · assumption
  · unfold hostPortString
    cases hp : u.port with
    | none =>
      simp only [hp]
      exact hhost
    | some p =>
      simp only [hp]
      exact append_ne_empty_left _ _ (append_ne_empty_left _ _ hhost)

def querySuffix : Option String → String
  | some q => "?" ++ q
  | none => ""

/-- On a parseable value, `rewrite_url_header` produces exactly
"remote scheme ++ :// ++ remote host ++ own path ++ own query". -/
theorem rewrite_url_header_of_parse (v : String) (vu : Url) (u : Url)
    (hv : urlParse v = some vu) :
    rewrite_url_header v u.host (some u.scheme) =
      u.scheme ++ "://" ++ u.host ++ vu.path ++ querySuffix vu.query := by
  unfold rewrite_url_header
  rw [hv]
  cases hq : vu.query <;> simp [querySuffix, hq, Option.getD]

/-- On an unparseable value, `rewrite_url_header` falls back to the bare
base URL of the target. -/
theorem rewrite_url_header_of_unparsed (v : String) (u : Url)
    (hv : urlParse v = none) :
    rewrite_url_header v u.host (some u.scheme) =
      u.scheme ++ "://" ++ u.host := by
  unfold rewrite_url_header
  rw [hv]
  rfl

/-- Projection used to state concrete handler examples. -/
def outboundHeaders : Except (Nat × String) OutboundRequest → Headers
  | .ok o => o.headers
  | .error _ => []

/-! ## Lifecycle helper characterizations and concrete fixtures -/

/-- The configuration as `start_proxy_helper` rewrites it before creating
the server (`listen_address` recomputed, `is_running` set). -/
def updatedOf (config : ProxyConfig) : ProxyConfig :=
  { config with
    listen_address := config.listen_ip ++ ":" ++ Nat.repr config.listen_port,
    is_running := true }

/-- The server task `create_proxy_server` hands back for a successfully
parsed listen address. -/
def taskOf (env : NetEnv) (config : ProxyConfig) (addr : SocketAddr) :
    ServerTask :=
  { addr := addr,
    state := ProxyState.new env (updatedOf config),
    outcome := serverTaskOutcome env (updatedOf config) addr,
    join := env.joinOutcome }

theorem start_proxy_helper_ok_of (env : NetEnv) (manager : Registry)
    (config : ProxyConfig) (addr : SocketAddr)
    (hprobe : check_port_available env config.listen_ip config.listen_port
      = true)
    (hparse : env.parseSocketAddr
      (config.listen_ip ++ ":" ++ Nat.repr config.listen_port) = some addr) :
    start_proxy_helper env manager config =
      (registryInsert manager config.id
        { config := updatedOf config, task := taskOf env config addr },
       .ok ()) := by
  unfold start_proxy_helper create_proxy_server
  simp [hprobe, updatedOf, taskOf, hparse]

/-- A healthy environment fixture: resolution, parsing and the transient
bind all succeed (as they do on a real host for `127.0.0.1` with a free
port — and for port `0`, which the OS binds by picking an ephemeral
port); the join resolves promptly; `reqwest::Proxy::all` rejects the
configured proxy string (exercised by the invalid-SOCKS5 scenario). -/
def fixtureEnv : NetEnv :=
  { resolveFirst := fun _ => some { ip := "127.0.0.1", port := 8443 },
    bindOk := fun _ => true,
    parseSocketAddr := fun _ => some { ip := "127.0.0.1", port := 8443 },
    certGenOk := true,
    writeCertOk := true,
    writeKeyOk := true,
    tlsConfigOk := true,
    serveFatal := fun _ => false,
    joinOutcome := .finished,
    proxyParseOk := fun _ => false }

/-- A concrete configuration fixture. -/
def fixtureCfg : ProxyConfig :=
  { id := "cfg-1", name := "demo", listen_address := "",
    listen_port := 8443, listen_ip := "127.0.0.1",
    remote_address := "https://target.example", remote_host := "",
    use_https := false, headers := [], rewrite_host_headers := true,
    socks5_proxy := none, created_at := 0, is_running := false }

/-! ## Claim C1 -/

/-- C1 counterexample: with TLS certificate generation failing (an HTTPS
configuration in an environment whose `generate_self_signed_cert` errors),
`start_proxy_helper` still returns `Ok` and the instance IS present in the
Registry after start returns, even though the spawned server task ended in
`certFailed` and never reached `Serving`. This falsifies the claim that no
entry for `config.id` is present in the Registry when certificate
generation fails. -/
theorem claim1_counterexample :
    (start_proxy_helper { fixtureEnv with certGenOk := false } []
      { fixtureCfg with use_https := true }).2 = .ok () ∧
    registryContains
      (start_proxy_helper { fixtureEnv with certGenOk := false } []
        { fixtureCfg with use_https := true }).1 "cfg-1" = true ∧
    (registryGet
      (start_proxy_helper { fixtureEnv with certGenOk := false } []
        { fixtureCfg with use_https := true }).1 "cfg-1").map
      (fun i => i.task.outcome) = some .certFailed := by
  decide

/-- C1 (amended): `start_proxy_helper` inserts the `RunningInstance` into
the Registry whenever the port probe succeeds and the listen address
parses, without awaiting the spawned server task; TLS certificate
generation (and the bind) happen asynchronously inside that task, so when
certificate generation fails the task ends in `certFailed` — never
reaching `Serving` — while the entry for `config.id` is nevertheless
present in the Registry after start returns. -/
theorem claim1_insert_not_conditioned_on_serving
    (env : NetEnv) (manager : Registry) (config : ProxyConfig)
    (addr : SocketAddr)
    (hprobe : check_port_available env config.listen_ip config.listen_port
      = true)
    (hparse : env.parseSocketAddr
      (config.listen_ip ++ ":" ++ Nat.repr config.listen_port) = some addr) :
    (start_proxy_helper env manager config).2 = .ok () ∧
    registryContains (start_proxy_helper env manager config).1 config.id
      = true ∧
    (config.use_https = true → env.certGenOk = false →
      (registryGet (start_proxy_helper env manager config).1 config.id).map
        (fun i => i.task.outcome) = some .certFailed) := by
  rw [start_proxy_helper_ok_of env manager config addr hprobe hparse]
  refine ⟨rfl, registryContains_insert_self _ _ _, ?_⟩
  intro hhttps hcert
  rw [registryGet_insert_self]
  simp [taskOf, serverTaskOutcome, updatedOf, hhttps, hcert]

/-- C1 witness: the amended theorem applied to the concrete fixture. -/
theorem claim1_witness :
    (start_proxy_helper { fixtureEnv with certGenOk := false } []
      { fixtureCfg with use_https := true }).2 = .ok () ∧
    registryContains
      (start_proxy_helper { fixtureEnv with certGenOk := false } []
        { fixtureCfg with use_https := true }).1
      { fixtureCfg with use_https := true }.id = true ∧
    ({ fixtureCfg with use_https := true }.use_https = true →
      { fixtureEnv with certGenOk := false }.certGenOk = false →
      (registryGet
        (start_proxy_helper { fixtureEnv with certGenOk := false } []
          { fixtureCfg with use_https := true }).1
        { fixtureCfg with use_https := true }.id).map
        (fun i => i.task.outcome) = some .certFailed) :=
  claim1_insert_not_conditioned_on_serving
    { fixtureEnv with certGenOk := false } []
    { fixtureCfg with use_https := true }
    { ip := "127.0.0.1", port := 8443 } (by decide) (by decide)

/-! ## Claim C2 -/

/-- C2 counterexample: in an environment where `127.0.0.1:0` resolves and
the transient bind succeeds (which is what a real OS does — binding port
`0` picks an ephemeral port), `check_port_available` reports port `0` as
AVAILABLE, and `start_proxy_helper` on a `listenPort = 0` configuration
proceeds past the probe and returns `Ok`. This falsifies both that the
Port Prober reports port `0` unavailable for every ip and that `start`
fails before any bind attempt. -/
theorem claim2_counterexample :
    check_port_available fixtureEnv "127.0.0.1" 0 = true ∧
    { fixtureCfg with listen_port := 0 }.listen_port = 0 ∧
    (start_proxy_helper fixtureEnv []
      { fixtureCfg with listen_port := 0 }).2 = .ok () := by
  decide

/-- C2 (amended): the port-`0` special case lives in the `check_port`
IPC command, not in the Port Prober: `check_port` reports port `0`
unavailable for every ip and every environment without probing, while
`check_port_available` has no port-`0` case, so `start_proxy_helper` on a
`listenPort = 0` configuration performs the transient bind probe and, when
that probe succeeds and the address parses, proceeds to create the server
and returns `Ok`. -/
theorem claim2_port_zero_rejected_only_in_ipc :
    (∀ env : NetEnv, ∀ ip : String, check_port env ip 0 = false) ∧
    (∀ env : NetEnv, ∀ manager : Registry, ∀ config : ProxyConfig,
      ∀ addr : SocketAddr,
      config.listen_port = 0 →
      check_port_available env config.listen_ip config.listen_port = true →
      env.parseSocketAddr
        (config.listen_ip ++ ":" ++ Nat.repr config.listen_port)
        = some addr →
      (start_proxy_helper env manager config).2 = .ok ()) := by
  constructor
  · intro env ip
    simp [check_port]
  · intro env manager config addr _ hprobe hparse
    rw [start_proxy_helper_ok_of env manager config addr hprobe hparse]

/-- C2 witness: both parts of the amended theorem at concrete inputs. -/
theorem claim2_witness :
    check_port fixtureEnv "127.0.0.1" 0 = false ∧
    (start_proxy_helper fixtureEnv []
      { fixtureCfg with listen_port := 0 }).2 = .ok () :=
  ⟨claim2_port_zero_rejected_only_in_ipc.1 fixtureEnv "127.0.0.1",
   claim2_port_zero_rejected_only_in_ipc.2 fixtureEnv []
     { fixtureCfg with listen_port := 0 }
     { ip := "127.0.0.1", port := 8443 } (by decide) (by decide) (by decide)⟩

/-! ## Claim C3 -/

/-- C3: `stop_proxy(id)` fails with the not-found error exactly when `id`
is absent from the Registry; when present, the entry is removed from the
Registry first (the registry after the call is exactly the old one with
the entry removed, whatever else happens), and — with a healthy store —
both a serve task that finishes within the five-second bound and one that
times out yield a successful stop. The hypothesis on the join outcome
excludes only the `JoinError` (panicked task) case, which the claim does
not speak about: tasks spawned by `create_proxy_server` return `()`
normally. -/
theorem claim3_stop_notfound_iff_and_bounded_success
    (store : StoreState) (reg : Registry) (config_id : String)
    (cs : List ProxyConfig)
    (hopen : store.openOk = true) (hsave : store.saveOk = true)
    (hval : store.value = some (.good cs))
    (hjoin : ∀ inst, registryGet reg config_id = some inst →
      inst.task.join = .finished ∨ inst.task.join = .timedOut) :
    ((stop_proxy store reg config_id).2.2 =
        .error ("Proxy not found: " ++ config_id) ↔
      registryContains reg config_id = false) ∧
    (registryContains reg config_id = true →
      (stop_proxy store reg config_id).2.1 = registryRemove reg config_id ∧
      (stop_proxy store reg config_id).2.2 = .ok ()) := by
  cases hget : registryGet reg config_id with
  | none =>
    have hcon : registryContains reg config_id = false :=
      (registryGet_eq_none_iff reg config_id).mp hget
    simp [stop_proxy, hget, hcon]
  | some inst =>
    have hcon : registryContains reg config_id = true :=
      registryContains_of_get reg config_id inst hget
    rcases hjoin inst hget with hj | hj <;>
      simp [stop_proxy, hget, stop_proxy_server, hj, hopen, hval, hsave,
        deserializeConfigs, hcon]

/-- A concrete running instance and a healthy store, for the witnesses. -/
def fixtureInstance : ProxyInstance :=
  { config := fixtureCfg,
    task := { addr := { ip := "127.0.0.1", port := 8443 },
              state := { config := fixtureCfg, clientProxy := none },
              outcome := .serving, join := .finished } }

def fixtureStore : StoreState :=
  { openOk := true, value := some (.good [fixtureCfg]), saveOk := true }

/-- C3 witness: the theorem at a one-entry registry whose task joins
cleanly. -/
theorem claim3_witness :
    ((stop_proxy fixtureStore [("cfg-1", fixtureInstance)] "cfg-1").2.2 =
        .error ("Proxy not found: " ++ "cfg-1") ↔
      registryContains [("cfg-1", fixtureInstance)] "cfg-1" = false) ∧
    (registryContains [("cfg-1", fixtureInstance)] "cfg-1" = true →
      (stop_proxy fixtureStore [("cfg-1", fixtureInstance)] "cfg-1").2.1 =
        registryRemove [("cfg-1", fixtureInstance)] "cfg-1" ∧
      (stop_proxy fixtureStore [("cfg-1", fixtureInstance)] "cfg-1").2.2 =
        .ok ()) :=
  claim3_stop_notfound_iff_and_bounded_success fixtureStore
    [("cfg-1", fixtureInstance)] "cfg-1" [fixtureCfg] rfl rfl rfl
    (by
      intro inst h
      have he : fixtureInstance = inst := by
        simpa [registryGet] using h
      rw [← he]
      exact Or.inl rfl)

/-! ## Claim C4 -/

/-- When `start_proxy_helper` succeeds it has inserted the instance: the
resulting registry holds exactly one entry for the configuration's id. -/
theorem start_proxy_helper_ok_inv (env : NetEnv) (manager : Registry)
    (config : ProxyConfig) (reg' : Registry)
    (h : start_proxy_helper env manager config = (reg', .ok ())) :
    registryCountKey reg' config.id = 1 ∧
    registryContains reg' config.id = true := by
  unfold start_proxy_helper at h
  split at h
  · simp at h
  · simp only [] at h
    split at h
    · simp at h
    · simp only [Prod.mk.injEq] at h
      rw [← h.1]
      exact ⟨registryCountKey_insert _ _ _, registryContains_insert_self _ _ _⟩

/-- When the `start_proxy` command succeeds, the resulting registry holds
exactly one entry under the started id. -/
theorem start_proxy_ok_inv (env : NetEnv) (store : StoreState)
    (reg : Registry) (config_id : String) (s₁ : StoreState) (r₁ : Registry)
    (h : start_proxy env store reg config_id = (s₁, r₁, .ok ())) :
    registryCountKey r₁ config_id = 1 ∧
    registryContains r₁ config_id = true := by
  unfold start_proxy at h
  by_cases hcon : registryContains reg config_id = true
  · simp [hcon] at h
  · by_cases hopen : store.openOk = true
    case neg => simp [hcon, hopen] at h
    cases hv : store.value with
    | none => simp [hcon, hopen, hv] at h
    | some v =>
      cases hdes : deserializeConfigs v with
      | none => simp [hcon, hopen, hv, hdes] at h
      | some configs =>
        cases hfind : configs.find? (fun c => c.id = config_id) with
        | none => simp [hcon, hopen, hv, hdes, hfind] at h
        | some config =>
          have hp := @List.find?_some ProxyConfig
            (fun c => decide (c.id = config_id)) config configs hfind
          have hid : config.id = config_id := of_decide_eq_true hp
          cases hhelp : start_proxy_helper env reg config with
          | mk reg₂ res₂ =>
            cases res₂ with
            | error e =>
              simp [hcon, hopen, hv, hdes, hfind, hhelp] at h
            | ok uu =>
              cases uu
              have hinv := start_proxy_helper_ok_inv env reg config reg₂
                hhelp
              by_cases hsave : store.saveOk = true
              · simp [hcon, hopen, hv, hdes, hfind, hhelp, hsave,
                  Prod.mk.injEq] at h
                rw [← h.2, ← hid]
                exact hinv
              · simp [hcon, hopen, hv, hdes, hfind, hhelp, hsave] at h

/-- C4: after a first successful `start_proxy` call for an id, the
registry holds exactly one entry for it, and a second, directly
subsequent `start_proxy` call for the same id fails with the
already-running error and leaves the registry unchanged. -/
theorem claim4_second_start_already_running
    (env : NetEnv) (store : StoreState) (reg : Registry)
    (config_id : String) (s₁ : StoreState) (r₁ : Registry)
    (h : start_proxy env store reg config_id = (s₁, r₁, .ok ())) :
    (start_proxy env s₁ r₁ config_id).2.2 =
      .error ("Proxy already running: " ++ config_id) ∧
    (start_proxy env s₁ r₁ config_id).2.1 = r₁ ∧
    registryCountKey r₁ config_id = 1 := by
  obtain ⟨hcount, hcon⟩ := start_proxy_ok_inv env store reg config_id s₁ r₁ h
  refine ⟨?_, ?_, hcount⟩ <;> simp [start_proxy, hcon]

/-- The store and registry a successful first `start_proxy` of the
fixture leaves behind. -/
def fixtureStore1 : StoreState :=
  { openOk := true,
    value := some (.good [{ fixtureCfg with is_running := true }]),
    saveOk := true }

def fixtureReg1 : Registry :=
  [("cfg-1",
    { config := updatedOf fixtureCfg,
      task := taskOf fixtureEnv fixtureCfg
        { ip := "127.0.0.1", port := 8443 } })]

/-- C4 witness: the theorem at the concrete fixture (first call computed
to have succeeded with that exact post-state). -/
theorem claim4_witness :
    (start_proxy fixtureEnv fixtureStore1 fixtureReg1 "cfg-1").2.2 =
      .error ("Proxy already running: " ++ "cfg-1") ∧
    (start_proxy fixtureEnv fixtureStore1 fixtureReg1 "cfg-1").2.1 =
      fixtureReg1 ∧
    registryCountKey fixtureReg1 "cfg-1" = 1 :=
  claim4_second_start_already_running fixtureEnv fixtureStore [] "cfg-1"
    fixtureStore1 fixtureReg1 (by decide)

/-! ## Claim C5 -/

/-- The configuration of the claim's concrete example: remote
`http://backend.local:9000`, empty `remote_host`. -/
def hostExampleCfg : ProxyConfig :=
  { fixtureCfg with remote_address := "http://backend.local:9000" }

/-- C5: the handler strips the inbound `Host` unconditionally and sets the
outbound `Host` to `remote_host` when non-empty, otherwise to `host[:port]`
derived from the parsed `remote_address` (the parser model drops
scheme-default ports, so the port appears exactly when present and
non-default); when `remote_address` itself does not parse, no `Host` is
set at all (the inbound one never survives). Concretely,
`remoteAddress = http://backend.local:9000` with empty `remoteHost` yields
outbound `Host: backend.local:9000`. -/
theorem claim5_host_header_rules :
    (∀ (config : ProxyConfig) (pq : String) (inHeaders : Headers)
        (out : OutboundRequest) (u : Url),
      buildOutbound config pq inHeaders = .ok out →
      urlParse config.remote_address = some u →
      validHeaderValue (hostHeaderOf config u) = true →
      headersGet out.headers "host" = some (hostHeaderOf config u)) ∧
    (∀ (config : ProxyConfig) (pq : String) (inHeaders : Headers)
        (out : OutboundRequest),
      buildOutbound config pq inHeaders = .ok out →
      urlParse config.remote_address = none →
      headersGet out.headers "host" = none) ∧
    headersGet (outboundHeaders (buildOutbound hostExampleCfg "/status"
      [("host", "127.0.0.1:8080")])) "host" = some "backend.local:9000" := by
  refine ⟨?_, ?_, ?_⟩
  · intro config pq inHeaders out u hok hu hv
    rw [buildOutbound_ok_headers config pq inHeaders out u hok hu,
      applyExtraHeaders_get_host, rewriteStage_get_host]
    unfold hostStage
    rw [if_pos ⟨hostHeaderOf_ne_empty config u (urlParse_host_ne _ _ hu), hv⟩]
    exact headersGet_insert_self _ _ _
  · intro config pq inHeaders out hok hu
    rw [buildOutbound_ok_headers_of_unparsed config pq inHeaders out hok hu,
      applyExtraHeaders_get_host, headersGet_remove_self]
  · decide

/-- C5 witness: the general rule applied to the concrete example
configuration and request. -/
theorem claim5_witness :
    headersGet (OutboundRequest.mk "http://backend.local:9000/status"
      [("host", "backend.local:9000")]).headers "host" =
      some (hostHeaderOf hostExampleCfg
        { scheme := "http", host := "backend.local", port := some 9000,
          path := "/", query := none }) :=
  claim5_host_header_rules.1 hostExampleCfg "/status"
    [("host", "127.0.0.1:8080")]
    { url := "http://backend.local:9000/status",
      headers := [("host", "backend.local:9000")] }
    { scheme := "http", host := "backend.local", port := some 9000,
      path := "/", query := none }
    (by decide) (by decide) (by decide)

/-! ## Claim C6 -/

/-- C6: with `rewrite_host_headers` set, a parseable `Referer` or `Origin`
value is replaced by the remote target's scheme and host with the value's
own path and query preserved (the configured extra headers are assumed not
to override the header in question, since they are applied afterwards as
overwrites). Concretely, inbound `Referer: http://original.example/a/b?x=1`
with remote target `https://target.example` yields outbound
`Referer: https://target.example/a/b?x=1`. -/
theorem claim6_referer_origin_rewrite :
    (∀ (config : ProxyConfig) (pq : String) (inHeaders : Headers)
        (out : OutboundRequest) (u : Url) (rv : String) (ru : Url),
      buildOutbound config pq inHeaders = .ok out →
      config.rewrite_host_headers = true →
      urlParse config.remote_address = some u →
      (∀ h ∈ config.headers, h.key.toLower ≠ "referer") →
      headersGet inHeaders "referer" = some rv →
      urlParse rv = some ru →
      validHeaderValue
        (u.scheme ++ "://" ++ u.host ++ ru.path ++ querySuffix ru.query)
        = true →
      headersGet out.headers "referer" =
        some (u.scheme ++ "://" ++ u.host ++ ru.path ++
          querySuffix ru.query)) ∧
    (∀ (config : ProxyConfig) (pq : String) (inHeaders : Headers)
        (out : OutboundRequest) (u : Url) (ov : String) (ou : Url),
      buildOutbound config pq inHeaders = .ok out →
      config.rewrite_host_headers = true →
      urlParse config.remote_address = some u →
      (∀ h ∈ config.headers, h.key.toLower ≠ "origin") →
      headersGet inHeaders "origin" = some ov →
      urlParse ov = some ou →
      validHeaderValue
        (u.scheme ++ "://" ++ u.host ++ ou.path ++ querySuffix ou.query)
        = true →
      headersGet out.headers "origin" =
        some (u.scheme ++ "://" ++ u.host ++ ou.path ++
          querySuffix ou.query)) ∧
    headersGet (outboundHeaders (buildOutbound fixtureCfg "/"
      [("referer", "http://original.example/a/b?x=1")])) "referer" =
      some "https://target.example/a/b?x=1" := by
  refine ⟨?_, ?_, ?_⟩
  · intro config pq inHeaders out u rv ru hok hrw hu hextras hin hru hv
    rw [buildOutbound_ok_headers config pq inHeaders out u hok hu,
      applyExtraHeaders_get_ne _ _ _ hextras]
    unfold rewriteStage
    rw [if_pos hrw, rewriteHeaderIfPresent_get_ne _ _ _ _ (by decide)]
    have hhs1 : headersGet
        (hostStage config (headersRemove inHeaders "host") u) "referer" =
        some rv := by
      rw [hostStage_get_ne _ _ _ _ (by decide),
        headersGet_remove_ne _ _ _ (by decide)]
      exact hin
    have hrv := rewrite_url_header_of_parse rv ru u hru
    rw [← hrv] at hv ⊢
    exact rewriteHeaderIfPresent_get_self _ "referer" u rv hhs1 hv
  · intro config pq inHeaders out u ov ou hok hrw hu hextras hin hou hv
    rw [buildOutbound_ok_headers config pq inHeaders out u hok hu,
      applyExtraHeaders_get_ne _ _ _ hextras]
    unfold rewriteStage
    rw [if_pos hrw]
    have hhs2 : headersGet
        (rewriteHeaderIfPresent
          (hostStage config (headersRemove inHeaders "host") u)
          "referer" u) "origin" = some ov := by
      rw [rewriteHeaderIfPresent_get_ne _ _ _ _ (by decide),
        hostStage_get_ne _ _ _ _ (by decide),
        headersGet_remove_ne _ _ _ (by decide)]
      exact hin
    have hov := rewrite_url_header_of_parse ov ou u hou
    rw [← hov] at hv ⊢
    exact rewriteHeaderIfPresent_get_self _ "origin" u ov hhs2 hv
  · decide

/-- C6 witness: the referer rule applied to the concrete example. -/
theorem claim6_witness :
    headersGet (OutboundRequest.mk "https://target.example/"
      [("host", "target.example"),
        ("referer", "https://target.example/a/b?x=1")]).headers "referer" =
      some ("https" ++ "://" ++ "target.example" ++ "/a/b" ++
        querySuffix (some "x=1")) :=
  claim6_referer_origin_rewrite.1 fixtureCfg "/"
    [("referer", "http://original.example/a/b?x=1")]
    { url := "https://target.example/",
      headers := [("host", "target.example"),
        ("referer", "https://target.example/a/b?x=1")] }
    { scheme := "https", host := "target.example", port := none,
      path := "/", query := none }
    "http://original.example/a/b?x=1"
    { scheme := "http", host := "original.example", port := none,
      path := "/a/b", query := some "x=1" }
    (by decide) rfl (by decide) (by simp [fixtureCfg]) (by decide) (by decide)
    (by decide)

/-! ## Claim C7 -/

/-- C7 counterexample: with rewriting enabled, a malformed `Referer`
value (`not-a-url`) is NOT left unmodified: `rewrite_url_header`'s
fallback replaces it with the bare base URL of the remote target
(`https://target.example`). -/
theorem claim7_counterexample :
    headersGet [("referer", "not-a-url")] "referer" = some "not-a-url" ∧
    headersGet (outboundHeaders (buildOutbound fixtureCfg "/"
      [("referer", "not-a-url")])) "referer" =
      some "https://target.example" ∧
    ¬ headersGet (outboundHeaders (buildOutbound fixtureCfg "/"
      [("referer", "not-a-url")])) "referer" = some "not-a-url" := by
  decide

/-- C7 (amended): with `rewrite_host_headers` set, a `Referer` or
`Origin` value that does not parse as a URL is replaced on the outgoing
request by `scheme://host` of the remote target (the rewrite fallback),
rather than left unmodified or dropped. -/
theorem claim7_malformed_value_replaced :
    (∀ (config : ProxyConfig) (pq : String) (inHeaders : Headers)
        (out : OutboundRequest) (u : Url) (rv : String),
      buildOutbound config pq inHeaders = .ok out →
      config.rewrite_host_headers = true →
      urlParse config.remote_address = some u →
      (∀ h ∈ config.headers, h.key.toLower ≠ "referer") →
      headersGet inHeaders "referer" = some rv →
      urlParse rv = none →
      validHeaderValue (u.scheme ++ "://" ++ u.host) = true →
      headersGet out.headers "referer" =
        some (u.scheme ++ "://" ++ u.host)) ∧
    (∀ (config : ProxyConfig) (pq : String) (inHeaders : Headers)
        (out : OutboundRequest) (u : Url) (ov : String),
      buildOutbound config pq inHeaders = .ok out →
      config.rewrite_host_headers = true →
      urlParse config.remote_address = some u →
      (∀ h ∈ config.headers, h.key.toLower ≠ "origin") →
      headersGet inHeaders "origin" = some ov →
      urlParse ov = none →
      validHeaderValue (u.scheme ++ "://" ++ u.host) = true →
      headersGet out.headers "origin" =
        some (u.scheme ++ "://" ++ u.host)) := by
  constructor
  · intro config pq inHeaders out u rv hok hrw hu hextras hin hru hv
    rw [buildOutbound_ok_headers config pq inHeaders out u hok hu,
      applyExtraHeaders_get_ne _ _ _ hextras]
    unfold rewriteStage
    rw [if_pos hrw, rewriteHeaderIfPresent_get_ne _ _ _ _ (by decide)]
    have hhs1 : headersGet
        (hostStage config (headersRemove inHeaders "host") u) "referer" =
        some rv := by
      rw [hostStage_get_ne _ _ _ _ (by decide),
        headersGet_remove_ne _ _ _ (by decide)]
      exact hin
    have hrv := rewrite_url_header_of_unparsed rv u hru
    rw [← hrv] at hv ⊢
    exact rewriteHeaderIfPresent_get_self _ "referer" u rv hhs1 hv
  · intro config pq inHeaders out u ov hok hrw hu hextras hin hou hv
    rw [buildOutbound_ok_headers config pq inHeaders out u hok hu,
      applyExtraHeaders_get_ne _ _ _ hextras]
    unfold rewriteStage
    rw [if_pos hrw]
    have hhs2 : headersGet
        (rewriteHeaderIfPresent
          (hostStage config (headersRemove inHeaders "host") u)
          "referer" u) "origin" = some ov := by
      rw [rewriteHeaderIfPresent_get_ne _ _ _ _ (by decide),
        hostStage_get_ne _ _ _ _ (by decide),
        headersGet_remove_ne _ _ _ (by decide)]
      exact hin
    have hov := rewrite_url_header_of_unparsed ov u hou
    rw [← hov] at hv ⊢
    exact rewriteHeaderIfPresent_get_self _ "origin" u ov hhs2 hv

/-- C7 witness: the amended referer rule at the concrete malformed
value. -/
theorem claim7_witness :
    headersGet (OutboundRequest.mk "https://target.example/"
      [("host", "target.example"),
        ("referer", "https://target.example")]).headers "referer" =
      some ("https" ++ "://" ++ "target.example") :=
  claim7_malformed_value_replaced.1 fixtureCfg "/"
    [("referer", "not-a-url")]
    { url := "https://target.example/",
      headers := [("host", "target.example"),
        ("referer", "https://target.example")] }
    { scheme := "https", host := "target.example", port := none,
      path := "/", query := none }
    "not-a-url"
    (by decide) rfl (by decide) (by simp [fixtureCfg]) (by decide) (by decide)
    (by decide)

/-! ## Claim C8 -/

/-- C8: on a transport failure of the single outbound request, the
handler answers the client with `504 Gateway Timeout` for timeouts,
`502 Bad Gateway` for (non-timeout) connection failures and
`500 Internal Server Error` for every other transport failure, carrying a
short textual description as body; the handler returns this as an
ordinary error response (a value, not a crash), so the owning server task
keeps serving. -/
theorem claim8_transport_error_mapping
    (config : ProxyConfig) (pathQuery : String) (inHeaders : Headers)
    (out : OutboundRequest) (upstream : OutboundRequest → UpstreamOutcome)
    (isTimeout isConnect : Bool) (msg : String)
    (hok : buildOutbound config pathQuery inHeaders = .ok out)
    (hfail : upstream out = .failure isTimeout isConnect msg) :
    (isTimeout = true →
      proxy_handler config pathQuery inHeaders upstream =
        .errorResponse 504 ("Failed to forward request: " ++ msg)) ∧
    (isTimeout = false → isConnect = true →
      proxy_handler config pathQuery inHeaders upstream =
        .errorResponse 502 ("Failed to forward request: " ++ msg)) ∧
    (isTimeout = false → isConnect = false →
      proxy_handler config pathQuery inHeaders upstream =
        .errorResponse 500 ("Failed to forward request: " ++ msg)) := by
  refine ⟨?_, ?_, ?_⟩
  · intro h
    simp [proxy_handler, hok, hfail, h]
  · intro h1 h2
    simp [proxy_handler, hok, hfail, h1, h2]
  · intro h1 h2
    simp [proxy_handler, hok, hfail, h1, h2]

/-- C8 witness: a concrete timed-out upstream call mapped to 504. -/
theorem claim8_witness :
    proxy_handler fixtureCfg "/" []
      (fun _ => .failure true false "operation timed out") =
      .errorResponse 504
        ("Failed to forward request: " ++ "operation timed out") :=
  (claim8_transport_error_mapping fixtureCfg "/" []
    { url := "https://target.example/",
      headers := [("host", "target.example")] }
    (fun _ => .failure true false "operation timed out")
    true false "operation timed out" (by decide) rfl).1 rfl

/-! ## Claim C9 -/

/-- C9: with the store open, a stored value that fails to deserialize as
a configuration list makes `get_all_configs` return `Ok([])` rather than
an error, and an absent value also yields `Ok([])`. -/
theorem claim9_corrupt_or_absent_configs_yield_empty
    (store : StoreState) (hopen : store.openOk = true) :
    (∀ v, store.value = some v → deserializeConfigs v = none →
      get_all_configs store = .ok []) ∧
    (store.value = none → get_all_configs store = .ok []) := by
  constructor
  · intro v hv hde
    simp [get_all_configs, hopen, hv, hde]
  · intro hv
    simp [get_all_configs, hopen, hv]

/-- C9 witness: a concrete corrupt value and a concrete absent value. -/
theorem claim9_witness :
    get_all_configs
      { openOk := true, value := some (.corrupt "broken json"),
        saveOk := true } = .ok [] ∧
    get_all_configs { openOk := true, value := none, saveOk := true } =
      .ok [] :=
  ⟨(claim9_corrupt_or_absent_configs_yield_empty
      { openOk := true, value := some (.corrupt "broken json"),
        saveOk := true } rfl).1 (.corrupt "broken json") rfl rfl,
   (claim9_corrupt_or_absent_configs_yield_empty
      { openOk := true, value := none, saveOk := true } rfl).2 rfl⟩

/-! ## Claim C10 -/

/-- C10: a non-empty `socks5Proxy` value that `reqwest::Proxy::all`
rejects is logged and dropped: the endpoint's client is built with no
egress proxy at all, and `start_proxy_helper` still succeeds (under a
successful probe and address parse), storing an instance whose client
carries no proxy. -/
theorem claim10_invalid_socks5_ignored
    (env : NetEnv) (config : ProxyConfig) (u : String)
    (hsome : config.socks5_proxy = some u)
    (hne : trimString u ≠ "")
    (hbad : env.proxyParseOk u = false) :
    (ProxyState.new env config).clientProxy = none ∧
    (∀ manager addr,
      check_port_available env config.listen_ip config.listen_port = true →
      env.parseSocketAddr
        (config.listen_ip ++ ":" ++ Nat.repr config.listen_port)
        = some addr →
      (start_proxy_helper env manager config).2 = .ok () ∧
      (registryGet (start_proxy_helper env manager config).1 config.id).map
        (fun i => i.task.state.clientProxy) = some none) := by
  have hstate : ∀ cfg' : ProxyConfig, cfg'.socks5_proxy = some u →
      (ProxyState.new env cfg').clientProxy = none := by
    intro cfg' h
    simp [ProxyState.new, h, hne, hbad]
  refine ⟨hstate config hsome, ?_⟩
  intro manager addr hprobe hparse
  rw [start_proxy_helper_ok_of env manager config addr hprobe hparse]
  refine ⟨rfl, ?_⟩
  rw [registryGet_insert_self]
  simp [taskOf, hstate (updatedOf config) (by simp [updatedOf, hsome])]

/-- C10 witness: a concrete invalid proxy URL in the healthy fixture
environment (whose `reqwest::Proxy::all` oracle rejects it). -/
theorem claim10_witness :
    (ProxyState.new fixtureEnv
      { fixtureCfg with socks5_proxy := some "not a proxy url" }).clientProxy
      = none ∧
    (start_proxy_helper fixtureEnv []
      { fixtureCfg with socks5_proxy := some "not a proxy url" }).2 =
      .ok () :=
  ⟨(claim10_invalid_socks5_ignored fixtureEnv
      { fixtureCfg with socks5_proxy := some "not a proxy url" }
      "not a proxy url" rfl (by decide) rfl).1,
   ((claim10_invalid_socks5_ignored fixtureEnv
      { fixtureCfg with socks5_proxy := some "not a proxy url" }
      "not a proxy url" rfl (by decide) rfl).2 []
      { ip := "127.0.0.1", port := 8443 } (by decide) rfl).1⟩

end ReverseProxyGUI
